import Mathlib

/-!
Shallow embedding of the core of the `mcp-tools` repository:

* the memory-store adapter (`src/servers/memory-store/src/index.ts`): a JS
  `Map`-backed key/value store (`MemoryStoreImpl`), the effect runner
  (`handleEffect`) and the `call_tool` request handler;
* the Slack adapter (`src/servers/slack/src/index.ts`): the channel-access
  reconciliation procedure (`ensureChannelAccess`), the channel-scoped
  operations (`sendMessage`, `getLatestMessage`), the non-scoped operations,
  the outcome formatter (`handleResult`) and the `call_tool` request handler.

JavaScript `undefined` is modelled as `Option.none`; a JS `Map` is modelled as
an insertion-ordered association list (JS maps never hold duplicate keys, and
the operations below agree with `Map.set` / `Map.get` / `Map.has` /
`Map.delete` on such lists).  Promise rejection is modelled as
`Except.error` with the rejection's string rendering.  Every outbound API call
the Slack adapter performs is recorded as an `ApiEvent` in an execution trace,
in the order the calls are issued, so that ordering properties of the
reconciler can be stated as facts about the trace.
-/

/-- A JavaScript value that is either a string or `undefined`
(`undefined` = `none`). -/
abbrev JsVal := Option String

/-- JS string interpolation of a possibly-undefined value:
`String(undefined)` is `"undefined"`. -/
def jsShow : JsVal → String
  | some s => s
  | none => "undefined"

/-- JS truthiness of a possibly-undefined string: `undefined` and `""` are
falsy, every other string is truthy. -/
def strTruthy : JsVal → Bool
  | some s => !(s == "")
  | none => false

/-- The protocol error codes of `@modelcontextprotocol/sdk` (`ErrorCode`). -/
inductive ErrorCode where
  | parseError
  | invalidRequest
  | methodNotFound
  | invalidParams
  | internalError
deriving DecidableEq, Repr

/-- The SDK's `McpError`: a protocol error code plus a message. -/
structure McpError where
  code : ErrorCode
  message : String
deriving DecidableEq, Repr

/-- A `call_tool` result: the text of its single content block plus the
`isError` flag (absent in the source = `false`). -/
structure ToolResponse where
  text : String
  isError : Bool
deriving DecidableEq, Repr

/-! ## JS `Map` model -/

/-- A JS `Map` from JS values to JS values, as an insertion-ordered
association list. -/
abbrev JsMap := List (JsVal × JsVal)

/-- Lookup of the binding of a key, if any. -/
def mapLookup : JsMap → JsVal → Option JsVal
  | [], _ => none
  | (k1, v1) :: rest, k => if k1 = k then some v1 else mapLookup rest k

/-- `Map.has`. -/
def mapContains (m : JsMap) (k : JsVal) : Bool :=
  (mapLookup m k).isSome

/-- `Map.get`: returns the stored value, or `undefined` when the key is
absent (JS does not distinguish the two when the stored value is
`undefined`). -/
def mapGet (m : JsMap) (k : JsVal) : JsVal :=
  match mapLookup m k with
  | some v => v
  | none => none

/-- `Map.set`: replaces the value of an existing binding in place, otherwise
appends the new binding. -/
def mapSet : JsMap → JsVal → JsVal → JsMap
  | [], k, v => [(k, v)]
  | (k1, v1) :: rest, k, v =>
    if k1 = k then (k, v) :: rest else (k1, v1) :: mapSet rest k v

/-- `Map.delete`: removes the binding of the key (on the duplicate-free lists
a JS `Map` produces, removing every matching binding coincides with removing
the one binding). -/
def mapDelete : JsMap → JsVal → JsMap
  | [], _ => []
  | (k1, v1) :: rest, k =>
    if k1 = k then mapDelete rest k else (k1, v1) :: mapDelete rest k

/-! ## Memory-store adapter (`MemoryStoreImpl`) -/

/-- The error `MemoryStoreImpl.get` / `MemoryStoreImpl.delete` raise for an
absent key: `McpError(ErrorCode.InvalidRequest, "キーが見つかりません: <key>")`.
Within this adapter this is the only failure carrying
`ErrorCode.InvalidRequest`; it is the code's realization of the design's
`NotFound` failure kind. -/
def keyNotFoundError (k : JsVal) : McpError :=
  ⟨ErrorCode.invalidRequest, "キーが見つかりません: " ++ jsShow k⟩

/-- `MemoryStoreImpl.set`: stores the binding; never fails. -/
def storeSet (s : JsMap) (k v : JsVal) : JsMap :=
  mapSet s k v

/-- `MemoryStoreImpl.get`: `store.get(key)`, then throws the key-not-found
error when the obtained value `=== undefined`, else returns the value. -/
def storeGet (s : JsMap) (k : JsVal) : Except McpError JsVal :=
  match mapGet s k with
  | none => .error (keyNotFoundError k)
  | some v => .ok (some v)

/-- `MemoryStoreImpl.delete`: throws the key-not-found error when
`!store.has(key)`, else removes the binding. -/
def storeDelete (s : JsMap) (k : JsVal) : JsMap × Except McpError Unit :=
  if mapContains s k then (mapDelete s k, .ok ())
  else (s, .error (keyNotFoundError k))

/-- Assignment of one property of a JS object (`obj[k] = v`): replaces the
value of an existing property in place, otherwise appends the property. -/
def recordSet : List (String × JsVal) → String → JsVal → List (String × JsVal)
  | [], k, v => [(k, v)]
  | (k1, v1) :: rest, k, v =>
    if k1 = k then (k, v) :: rest else (k1, v1) :: recordSet rest k v

/-- `Object.fromEntries`: builds an object by assigning each entry in order —
property keys are stringified, the first insertion fixes a property's
position, and a later entry with the same stringified key overwrites its
value (later-entry-wins collapse; relevant when an `undefined` map key and
the literal key `"undefined"` coexist). -/
def objAssignAll : List (String × JsVal) → JsMap → List (String × JsVal)
  | acc, [] => acc
  | acc, (k, v) :: rest => objAssignAll (recordSet acc (jsShow k) v) rest

/-- `MemoryStoreImpl.list`: `Object.fromEntries(store.entries())` — the
store's entries folded into an object, with key stringification and the
duplicate-property collapse of `fromEntries`. -/
def storeList (s : JsMap) : List (String × JsVal) :=
  objAssignAll [] s

/-- Lookup of a property of a JS object by its (string) key. -/
def recordLookup : List (String × JsVal) → String → Option JsVal
  | [], _ => none
  | (k1, v1) :: rest, k => if k1 = k then some v1 else recordLookup rest k

/-- The value of the last map entry whose key stringifies to `k`, if any —
the value `fromEntries` assigns to property `k` (later entry wins). -/
def lastWins : JsMap → String → Option JsVal
  | [], _ => none
  | (k1, v1) :: rest, k =>
    match lastWins rest k with
    | some v => some v
    | none => if jsShow k1 = k then some v1 else none

/-- `JSON.stringify` of a string-or-undefined result (escaping of special
characters inside the string is abstracted). -/
def renderJsVal : JsVal → String
  | some s => "\"" ++ s ++ "\""
  | none => "undefined"

/-- `JSON.stringify` of the record returned by `list` (whitespace layout is
abstracted). -/
def renderRecord (r : List (String × JsVal)) : String :=
  "\x7b" ++ String.intercalate ", "
    (r.map (fun p => "\"" ++ p.1 ++ "\": " ++ renderJsVal p.2)) ++ "\x7d"

/-- The memory-store runner `handleEffect`: maps a successful outcome to a
content block (the success message when one is supplied and truthy, else the
serialized result).  It installs no error handler: a failure raised inside
the effect propagates out of `Effect.runSync` as the thrown `McpError`,
modelled here as the `Except.error` arm passing through unconverted. -/
def memHandleEffect {α : Type} (effect : Except McpError α) (render : α → String)
    (successMessage : Option String) : Except McpError ToolResponse :=
  match effect with
  | .ok a =>
    .ok ⟨match successMessage with
          | some m => if m == "" then render a else m
          | none => render a,
        false⟩
  | .error e => .error e

/-- Lookup of a field of the raw `arguments` object (argument values are
modelled as strings; an absent field is JS `undefined`). -/
def argLookup : List (String × String) → String → JsVal
  | [], _ => none
  | (k1, v) :: rest, k => if k1 = k then some v else argLookup rest k

/-- The memory-store `CallToolRequest` handler.  The `as { key: string ... }`
casts perform no validation: absent fields flow in as `undefined`.  The
result pairs the store after the call with either a tool response or the
`McpError` that escaped the handler. -/
def memHandleCall (store : JsMap) (name : String) (args : List (String × String)) :
    JsMap × Except McpError ToolResponse :=
  match name with
  | "set_value" =>
    let key := argLookup args "key"
    let value := argLookup args "value"
    (storeSet store key value,
      memHandleEffect (Except.ok ()) (fun _ => "undefined")
        (some ("値を保存しました: " ++ jsShow key ++ " = " ++ jsShow value)))
  | "get_value" =>
    let key := argLookup args "key"
    (store, memHandleEffect (storeGet store key) renderJsVal none)
  | "delete_value" =>
    let key := argLookup args "key"
    let result := storeDelete store key
    (result.1,
      memHandleEffect result.2 (fun _ => "undefined")
        (some ("値を削除しました: " ++ jsShow key)))
  | "list_values" =>
    (store, memHandleEffect (Except.ok (storeList store)) renderRecord none)
  | _ => (store, .error (McpError.mk ErrorCode.methodNotFound ("不明なツール: " ++ name)))

/-- The tool names registered by the memory-store adapter's `list_tools`
handler and dispatched by its `call_tool` switch. -/
def memToolNames : List String :=
  ["set_value", "get_value", "delete_value", "list_values"]

/-! ## Slack adapter: API surface -/

/-- The failure type of the Slack adapter (`class SlackError`). -/
structure SlackError where
  message : String
deriving DecidableEq, Repr

/-- Response of `auth.test`: the `ok` flag, the optional `error` string and
the optional bot user id. -/
structure AuthTestResp where
  ok : Bool
  error : Option String
  user_id : Option String
deriving DecidableEq, Repr

/-- The fields of a channel object the adapter consults (`channel.is_private`). -/
structure SlackChannel where
  is_private : Bool
deriving DecidableEq, Repr

/-- Response of `conversations.info`. -/
structure ChannelInfoResp where
  ok : Bool
  error : Option String
  channel : Option SlackChannel
deriving DecidableEq, Repr

/-- Response of `conversations.members`. -/
structure MembersResp where
  ok : Bool
  error : Option String
  members : Option (List String)
deriving DecidableEq, Repr

/-- Response of `conversations.invite` / `conversations.join`; only the `ok`
flag and `error` string are consulted. -/
structure PlainResp where
  ok : Bool
  error : Option String
deriving DecidableEq, Repr

/-- Response of `chat.postMessage`. -/
structure PostMessageResp where
  ok : Bool
  error : Option String
  ts : Option String
  channel : Option String
deriving DecidableEq, Repr

/-- A message object from `conversations.history`. -/
structure SlackMessage where
  text : Option String
  user : Option String
  ts : Option String
  thread_ts : Option String
deriving DecidableEq, Repr

/-- Response of `conversations.history`. -/
structure HistoryResp where
  ok : Bool
  error : Option String
  messages : Option (List SlackMessage)
deriving DecidableEq, Repr

/-- A channel entry of `conversations.list`. -/
structure ChannelEntry where
  id : Option String
  name : Option String
  is_private : Option Bool
  num_members : Option Nat
deriving DecidableEq, Repr

/-- Response of `conversations.list`. -/
structure ConvListResp where
  ok : Bool
  error : Option String
  channels : Option (List ChannelEntry)
deriving DecidableEq, Repr

/-- A member entry of `users.list`. -/
structure UserEntry where
  id : Option String
  name : Option String
  real_name : Option String
  is_bot : Option Bool
deriving DecidableEq, Repr

/-- Response of `users.list`. -/
structure UsersListResp where
  ok : Bool
  error : Option String
  members : Option (List UserEntry)
deriving DecidableEq, Repr

/-- The behaviour of the Slack `WebClient` during one request: each method
either resolves to a response object or rejects with (the string rendering
of) an error.  The adapter re-runs reconciliation on every invocation, so a
fixed per-request behaviour is the faithful model of the deterministic
external collaborator. -/
structure SlackWebClient where
  authTest : Except String AuthTestResp
  conversationsInfo : String → Except String ChannelInfoResp
  conversationsMembers : String → Except String MembersResp
  conversationsInvite : String → String → Except String PlainResp
  conversationsJoin : String → Except String PlainResp
  chatPostMessage : String → String → Except String PostMessageResp
  conversationsHistory : String → Except String HistoryResp
  conversationsList : Option Nat → Except String ConvListResp
  usersList : Option Nat → Except String UsersListResp

/-- One outbound call (or timed wait) performed by the Slack adapter, in the
order issued. -/
inductive ApiEvent where
  | authTestCall
  | channelInfoCall (channel : String)
  | membersCall (channel : String)
  | inviteCall (channel : String) (users : String)
  | joinCall (channel : String)
  | settleWait (millis : Nat)
  | postMessageCall (channel : String) (text : String)
  | historyCall (channel : String)
  | channelListCall
  | usersListCall
deriving DecidableEq, Repr

/-- The error `handleSlackResponse` throws for a response with `ok: false`:
`response.error || "Unknown Slack error"` (JS truthiness: an absent or empty
`error` string falls back to the generic message). -/
def slackRespError (error : Option String) : SlackError :=
  ⟨if strTruthy error then jsShow error else "Unknown Slack error"⟩

/-! ## Slack adapter: channel-access reconciliation and operations -/

/-- `ensureChannelAccess`: resolve the bot identity (`auth.test`), inspect
the channel (`conversations.info`), fetch its members
(`conversations.members`); when a members list is present and the bot id is
absent from it, invite (private channel) or self-join (public channel) and,
after a successful join/invite, sleep the fixed 2000 ms settle interval.
Returns the trace of calls issued together with the outcome. -/
def ensureChannelAccess (api : SlackWebClient) (channelId : String) :
    List ApiEvent × Except SlackError Unit :=
  match api.authTest with
  | .error e => ([.authTestCall], .error ⟨"Auth test failed: " ++ e⟩)
  | .ok botInfo =>
    if botInfo.ok then
      if strTruthy botInfo.user_id then
        let botId := jsShow botInfo.user_id
        match api.conversationsInfo channelId with
        | .error e =>
          ([.authTestCall, .channelInfoCall channelId],
            .error ⟨"Channel info failed: " ++ e⟩)
        | .ok channelInfo =>
          if channelInfo.ok then
            match api.conversationsMembers channelId with
            | .error e =>
              ([.authTestCall, .channelInfoCall channelId, .membersCall channelId],
                .error ⟨"Get members failed: " ++ e⟩)
            | .ok membersResp =>
              if membersResp.ok then
                match membersResp.members with
                | none =>
                  ([.authTestCall, .channelInfoCall channelId, .membersCall channelId],
                    .ok ())
                | some memberIds =>
                  if botId ∈ memberIds then
                    ([.authTestCall, .channelInfoCall channelId, .membersCall channelId],
                      .ok ())
                  else
                    match channelInfo.channel with
                    | none =>
                      ([.authTestCall, .channelInfoCall channelId, .membersCall channelId],
                        .error ⟨"Channel information not found"⟩)
                    | some ch =>
                      let joinEv := if ch.is_private then ApiEvent.inviteCall channelId botId
                                    else ApiEvent.joinCall channelId
                      let joinRes := if ch.is_private then api.conversationsInvite channelId botId
                                     else api.conversationsJoin channelId
                      match joinRes with
                      | .error e =>
                        ([.authTestCall, .channelInfoCall channelId, .membersCall channelId,
               joinEv], .error ⟨"Join channel failed: " ++ e⟩)
                      | .ok joinResult =>
                        if joinResult.ok then
                          ([.authTestCall, .channelInfoCall channelId, .membersCall channelId,
                 joinEv, .settleWait 2000], .ok ())
                        else
                          ([.authTestCall, .channelInfoCall channelId, .membersCall channelId,
                 joinEv], .error (slackRespError joinResult.error))
              else
                ([.authTestCall, .channelInfoCall channelId, .membersCall channelId],
                  .error (slackRespError membersResp.error))
          else
            ([.authTestCall, .channelInfoCall channelId],
              .error (slackRespError channelInfo.error))
      else ([.authTestCall], .error ⟨"Bot user ID not found"⟩)
    else ([.authTestCall], .error (slackRespError botInfo.error))

/-- The success value of `sendMessage`. -/
structure SendMessageResult where
  status : String
  ts : String
  channel : String
deriving DecidableEq, Repr

/-- `sendMessage`: reconcile channel access, then `chat.postMessage`; a
response missing (or empty, by JS truthiness) `ts` or `channel` is rejected
as invalid. -/
def sendMessage (api : SlackWebClient) (channel text : String) :
    List ApiEvent × Except SlackError SendMessageResult :=
  match ensureChannelAccess api channel with
  | (tr, .error e) => (tr, .error e)
  | (tr, .ok _) =>
    let tr2 := tr ++ [ApiEvent.postMessageCall channel text]
    match api.chatPostMessage channel text with
    | .error e => (tr2, .error ⟨"Send message failed: " ++ e⟩)
    | .ok response =>
      if response.ok then
        if strTruthy response.ts && strTruthy response.channel then
          (tr2, .ok ⟨"success", jsShow response.ts, jsShow response.channel⟩)
        else (tr2, .error ⟨"Invalid response from Slack API"⟩)
      else (tr2, .error (slackRespError response.error))

/-- The success value of `getLatestMessage`. -/
structure MessageResponse where
  text : Option String
  user : Option String
  ts : Option String
  thread_ts : Option String
deriving DecidableEq, Repr

/-- `getLatestMessage`: reconcile channel access, then read the latest
message via `conversations.history` (limit 1). -/
def getLatestMessage (api : SlackWebClient) (channel : String) :
    List ApiEvent × Except SlackError MessageResponse :=
  match ensureChannelAccess api channel with
  | (tr, .error e) => (tr, .error e)
  | (tr, .ok _) =>
    let tr2 := tr ++ [ApiEvent.historyCall channel]
    match api.conversationsHistory channel with
    | .error e => (tr2, .error ⟨"Get latest message failed: " ++ e⟩)
    | .ok response =>
      if response.ok then
        match response.messages with
        | none => (tr2, .ok ⟨some "No messages found in the channel", none, none, none⟩)
        | some [] => (tr2, .ok ⟨some "No messages found in the channel", none, none, none⟩)
        | some (message :: _) =>
          (tr2, .ok ⟨message.text, message.user, message.ts, message.thread_ts⟩)
      else (tr2, .error (slackRespError response.error))

/-- A channel entry of the `listChannels` result. -/
structure ChannelInfo where
  id : String
  name : String
  is_private : Bool
  num_members : Option Nat
deriving DecidableEq, Repr

/-- `listChannels`: `conversations.list`, mapping entries to `ChannelInfo`
with defaults and filtering out entries with a falsy id or name. -/
def listChannels (api : SlackWebClient) (limit : Option Nat) :
    List ApiEvent × Except SlackError (List ChannelInfo) :=
  match api.conversationsList limit with
  | .error e => ([.channelListCall], .error ⟨"List channels failed: " ++ e⟩)
  | .ok response =>
    if response.ok then
      match response.channels with
      | none => ([.channelListCall], .ok [])
      | some chans =>
        ([.channelListCall],
          .ok (((chans.map (fun c =>
              ChannelInfo.mk (jsShow c.id) (jsShow c.name) (c.is_private.getD false)
                c.num_members))).filter
            (fun c => !(c.id == "") && !(c.name == ""))))
    else ([.channelListCall], .error (slackRespError response.error))

/-- A user entry of the `listUsers` result. -/
structure UserInfo where
  id : String
  name : String
  real_name : Option String
  is_bot : Option Bool
deriving DecidableEq, Repr

/-- `listUsers`: `users.list`, mapping entries to `UserInfo` with defaults
and filtering out entries with a falsy id or name. -/
def listUsers (api : SlackWebClient) (limit : Option Nat) :
    List ApiEvent × Except SlackError (List UserInfo) :=
  match api.usersList limit with
  | .error e => ([.usersListCall], .error ⟨"List users failed: " ++ e⟩)
  | .ok response =>
    if response.ok then
      match response.members with
      | none => ([.usersListCall], .ok [])
      | some users =>
        ([.usersListCall],
          .ok (((users.map (fun u =>
              UserInfo.mk (jsShow u.id) (jsShow u.name) u.real_name u.is_bot))).filter
            (fun u => !(u.id == "") && !(u.name == ""))))
    else ([.usersListCall], .error (slackRespError response.error))

/-! ## Slack adapter: outcome formatter and request handler -/

/-- The Slack adapter's `handleResult`: `Effect.runPromise(effect).then(ok, err)`.
Success is serialized into a content block; every failure is caught by the
rejection callback and rendered as `Slack API error: <message>` with the
`isError` flag set. -/
def slackHandleResult {α : Type} (render : α → String) (r : Except SlackError α) :
    ToolResponse :=
  match r with
  | .ok a => ⟨render a, false⟩
  | .error e => ⟨"Slack API error: " ++ e.message, true⟩

/-- `JSON.stringify` of a `sendMessage` result (whitespace abstracted). -/
def renderSendMessageResult (r : SendMessageResult) : String :=
  "\x7b\"status\": \"" ++ r.status ++ "\", \"ts\": \"" ++ r.ts ++
    "\", \"channel\": \"" ++ r.channel ++ "\"\x7d"

/-- `JSON.stringify` of a `getLatestMessage` result (whitespace abstracted). -/
def renderMessageResponse (m : MessageResponse) : String :=
  "\x7b\"text\": " ++ renderJsVal m.text ++ ", \"user\": " ++ renderJsVal m.user ++
    ", \"ts\": " ++ renderJsVal m.ts ++ ", \"thread_ts\": " ++ renderJsVal m.thread_ts ++
    "\x7d"

/-- `JSON.stringify` of a `listChannels` result (abstracted to the entry
names; the serialized text is inspected by no property). -/
def renderChannelList (cs : List ChannelInfo) : String :=
  "\x7b\"channels\": [" ++ String.intercalate ", " (cs.map (fun c => c.name)) ++ "]\x7d"

/-- `JSON.stringify` of a `listUsers` result (abstracted to the entry names;
the serialized text is inspected by no property). -/
def renderUserList (us : List UserInfo) : String :=
  "\x7b\"users\": [" ++ String.intercalate ", " (us.map (fun u => u.name)) ++ "]\x7d"

/-- A fault escaping the Slack adapter's `call_tool` handler: either a thrown
`McpError` (unknown tool name) or a `ZodError` thrown by `Schema.parse`,
carrying the paths of the failing fields it enumerates. -/
inductive SlackException where
  | mcp (e : McpError)
  | zod (missingFields : List String)
deriving DecidableEq, Repr

/-- The fields of a zod object schema's required string fields that are
absent from the raw arguments, in schema order — what a `ZodError` for the
parse enumerates. -/
def zodMissingFields (args : List (String × String)) (required : List String) :
    List String :=
  required.filter (fun f => (argLookup args f).isNone)

/-- The Slack adapter's `CallToolRequest` handler: dispatch on the tool name,
`Schema.parse` the raw arguments (zod: reject when a required field is
missing, enumerating the failing fields; numeric `limit` parsed from its
decimal rendering), then run the operation through `handleResult`.  The
result pairs the trace of outbound calls with either a tool response or the
exception that escaped the handler. -/
def slackHandleCall (api : SlackWebClient) (name : String)
    (args : List (String × String)) :
    List ApiEvent × Except SlackException ToolResponse :=
  match name with
  | "send_message" =>
    match argLookup args "channel", argLookup args "text" with
    | some channel, some text =>
      let result := sendMessage api channel text
      (result.1, .ok (slackHandleResult renderSendMessageResult result.2))
    | _, _ => ([], .error (SlackException.zod (zodMissingFields args ["channel", "text"])))
  | "list_channels" =>
    match argLookup args "limit" with
    | some s =>
      match s.toNat? with
      | some n =>
        let result := listChannels api (some n)
        (result.1, .ok (slackHandleResult renderChannelList result.2))
      | none => ([], .error (SlackException.zod ["limit"]))
    | none =>
      let result := listChannels api none
      (result.1, .ok (slackHandleResult renderChannelList result.2))
  | "list_users" =>
    match argLookup args "limit" with
    | some s =>
      match s.toNat? with
      | some n =>
        let result := listUsers api (some n)
        (result.1, .ok (slackHandleResult renderUserList result.2))
      | none => ([], .error (SlackException.zod ["limit"]))
    | none =>
      let result := listUsers api none
      (result.1, .ok (slackHandleResult renderUserList result.2))
  | "get_latest_message" =>
    match argLookup args "channel" with
    | some channel =>
      let result := getLatestMessage api channel
      (result.1, .ok (slackHandleResult renderMessageResponse result.2))
    | none => ([], .error (SlackException.zod (zodMissingFields args ["channel"])))
  | _ => ([], .error (SlackException.mcp
      (McpError.mk ErrorCode.methodNotFound ("Unknown tool: " ++ name))))

/-- The tool names registered by the Slack adapter's `list_tools` handler and
dispatched by its `call_tool` switch. -/
def slackToolNames : List String :=
  ["send_message", "list_channels", "list_users", "get_latest_message"]

/-! ## Trace predicates -/

/-- Whether an event is a join or invite call. -/
def isJoinEvent : ApiEvent → Bool
  | .inviteCall _ _ => true
  | .joinCall _ => true
  | _ => false

/-- Whether an event is one of the guarded operations' calls: a message send
or a history read. -/
def isGuardedCallEvent : ApiEvent → Bool
  | .postMessageCall _ _ => true
  | .historyCall _ => true
  | _ => false

/-- The number of join/invite calls in a trace. -/
def countJoinEvents (tr : List ApiEvent) : Nat :=
  tr.countP (fun ev => isJoinEvent ev)

/-- A trace containing neither a message send nor a history read. -/
def noGuardedCalls (tr : List ApiEvent) : Bool :=
  tr.all (fun ev => !(isGuardedCallEvent ev))

/-- Whether a join/invite call fails: the call rejects, or resolves with
`ok: false`. -/
def callFails : Except String PlainResp → Bool
  | .error _ => true
  | .ok r => !r.ok

/-- Whether the channel inspection step (`conversations.info`) fails for the
given client and channel: the call rejects, or resolves with `ok: false`. -/
def channelInspectionFails (api : SlackWebClient) (channelId : String) : Bool :=
  match api.conversationsInfo channelId with
  | .error _ => true
  | .ok r => !r.ok

/-! ## Concrete clients used to instantiate the theorems -/

/-- A client for a public channel the bot is not yet a member of; every call
succeeds. -/
def apiJoinHappy : SlackWebClient where
  authTest := .ok ⟨true, none, some "B1"⟩
  conversationsInfo := fun _ => .ok ⟨true, none, some ⟨false⟩⟩
  conversationsMembers := fun _ => .ok ⟨true, none, some ["U7"]⟩
  conversationsInvite := fun _ _ => .ok ⟨true, none⟩
  conversationsJoin := fun _ => .ok ⟨true, none⟩
  chatPostMessage := fun _ _ => .ok ⟨true, none, some "111.222", some "C1"⟩
  conversationsHistory := fun _ => .ok ⟨true, none, some []⟩
  conversationsList := fun _ => .ok ⟨true, none, some []⟩
  usersList := fun _ => .ok ⟨true, none, some []⟩

/-- A client for a channel the bot is already a member of. -/
def apiMember : SlackWebClient where
  authTest := .ok ⟨true, none, some "B1"⟩
  conversationsInfo := fun _ => .ok ⟨true, none, some ⟨false⟩⟩
  conversationsMembers := fun _ => .ok ⟨true, none, some ["U7", "B1"]⟩
  conversationsInvite := fun _ _ => .ok ⟨true, none⟩
  conversationsJoin := fun _ => .ok ⟨true, none⟩
  chatPostMessage := fun _ _ => .ok ⟨true, none, some "111.222", some "C1"⟩
  conversationsHistory := fun _ => .ok ⟨true, none, some []⟩
  conversationsList := fun _ => .ok ⟨true, none, some []⟩
  usersList := fun _ => .ok ⟨true, none, some []⟩

/-- A client whose `conversations.info` rejects (nonexistent channel id). -/
def apiNoChannel : SlackWebClient where
  authTest := .ok ⟨true, none, some "B1"⟩
  conversationsInfo := fun _ => .error "Error: channel_not_found"
  conversationsMembers := fun _ => .error "Error: channel_not_found"
  conversationsInvite := fun _ _ => .error "Error: channel_not_found"
  conversationsJoin := fun _ => .error "Error: channel_not_found"
  chatPostMessage := fun _ _ => .ok ⟨true, none, some "111.222", some "C1"⟩
  conversationsHistory := fun _ => .ok ⟨true, none, some []⟩
  conversationsList := fun _ => .ok ⟨true, none, some []⟩
  usersList := fun _ => .ok ⟨true, none, some []⟩

/-- A client for a private channel the bot is absent from, whose invite call
is refused. -/
def apiPrivateInviteFails : SlackWebClient where
  authTest := .ok ⟨true, none, some "B1"⟩
  conversationsInfo := fun _ => .ok ⟨true, none, some ⟨true⟩⟩
  conversationsMembers := fun _ => .ok ⟨true, none, some ["U7"]⟩
  conversationsInvite := fun _ _ => .ok ⟨false, some "missing_scope"⟩
  conversationsJoin := fun _ => .ok ⟨true, none⟩
  chatPostMessage := fun _ _ => .ok ⟨true, none, some "111.222", some "C1"⟩
  conversationsHistory := fun _ => .ok ⟨true, none, some []⟩
  conversationsList := fun _ => .ok ⟨true, none, some []⟩
  usersList := fun _ => .ok ⟨true, none, some []⟩

/-- A client whose `conversations.members` response carries no `members`
field at all. -/
def apiNoMembersField : SlackWebClient where
  authTest := .ok ⟨true, none, some "B1"⟩
  conversationsInfo := fun _ => .ok ⟨true, none, some ⟨false⟩⟩
  conversationsMembers := fun _ => .ok ⟨true, none, none⟩
  conversationsInvite := fun _ _ => .ok ⟨true, none⟩
  conversationsJoin := fun _ => .ok ⟨true, none⟩
  chatPostMessage := fun _ _ => .ok ⟨true, none, some "111.222", some "C1"⟩
  conversationsHistory := fun _ => .ok ⟨true, none, some []⟩
  conversationsList := fun _ => .ok ⟨true, none, some []⟩
  usersList := fun _ => .ok ⟨true, none, some []⟩

/-! ## Map lemmas -/

theorem mapLookup_mapSet_self (m : JsMap) (k v : JsVal) :
    mapLookup (mapSet m k v) k = some v := by
  induction m with
  | nil => simp [mapSet, mapLookup]
  | cons p rest ih =>
    obtain ⟨k1, v1⟩ := p
    by_cases h : k1 = k <;> simp [mapSet, mapLookup, h, ih]

theorem mapLookup_mapDelete_self (m : JsMap) (k : JsVal) :
    mapLookup (mapDelete m k) k = none := by
  induction m with
  | nil => simp [mapDelete, mapLookup]
  | cons p rest ih =>
    obtain ⟨k1, v1⟩ := p
    by_cases h : k1 = k <;> simp [mapDelete, mapLookup, h, ih]

theorem recordLookup_recordSet (r : List (String × JsVal)) (k1 : String) (v : JsVal)
    (k : String) :
    recordLookup (recordSet r k1 v) k
      = if k1 = k then some v else recordLookup r k := by
  induction r with
  | nil => simp [recordSet, recordLookup]
  | cons p rest ih =>
    obtain ⟨a, b⟩ := p
    by_cases h : a = k1
    · by_cases hk : k1 = k <;> simp [recordSet, recordLookup, h, hk]
    · by_cases hk : a = k
      · have hne : k1 ≠ k := fun e => h (by rw [hk, e])
        have hne2 : k ≠ k1 := fun e => hne e.symm
        simp [recordSet, recordLookup, h, hk, hne, hne2]
      · simp [recordSet, recordLookup, h, hk, ih]

theorem lastWins_eq_none (es : JsMap) (k : String)
    (h : ∀ p ∈ es, jsShow p.1 ≠ k) : lastWins es k = none := by
  induction es with
  | nil => rfl
  | cons p rest ih =>
    obtain ⟨a, b⟩ := p
    have h1 : jsShow a ≠ k := h (a, b) (by simp)
    have h2 : ∀ q ∈ rest, jsShow q.1 ≠ k := fun q hq => h q (by simp [hq])
    simp [lastWins, ih h2, h1]

theorem objAssignAll_lookup (acc : List (String × JsVal)) (es : JsMap) (k : String) :
    recordLookup (objAssignAll acc es) k
      = match lastWins es k with
        | some w => some w
        | none => recordLookup acc k := by
  induction es generalizing acc with
  | nil => rfl
  | cons p rest ih =>
    obtain ⟨a, b⟩ := p
    rw [objAssignAll, ih]
    cases hw : lastWins rest k with
    | some w => simp [lastWins, hw]
    | none =>
      by_cases hk : jsShow a = k <;>
        simp [lastWins, hw, recordLookup_recordSet, hk]

theorem lastWins_mapSet_self (s : JsMap) (k : String) (v : JsVal)
    (hnd : (s.map Prod.fst).Nodup)
    (hcol : ∀ p ∈ s, jsShow p.1 = k → p.1 = some k) :
    lastWins (mapSet s (some k) v) k = some v := by
  induction s with
  | nil => simp [mapSet, lastWins, jsShow]
  | cons p rest ih =>
    obtain ⟨a, b⟩ := p
    simp only [List.map_cons, List.nodup_cons] at hnd
    obtain ⟨hna, hnr⟩ := hnd
    by_cases ha : a = some k
    · subst ha
      have hrest : ∀ q ∈ rest, jsShow q.1 ≠ k := by
        intro q hq hqk
        have hq1 : q.1 = some k := hcol q (by simp [hq]) hqk
        exact hna (hq1 ▸ List.mem_map_of_mem Prod.fst hq)
      simp [mapSet, lastWins, lastWins_eq_none rest k hrest, jsShow]
    · have ihr := ih hnr (fun q hq => hcol q (by simp [hq]))
      simp [mapSet, ha, lastWins, ihr]

theorem recordLookup_mem (r : List (String × JsVal)) (k : String) (w : JsVal)
    (h : recordLookup r k = some w) : (k, w) ∈ r := by
  induction r with
  | nil => simp [recordLookup] at h
  | cons p rest ih =>
    obtain ⟨a, b⟩ := p
    by_cases hk : a = k
    · subst hk
      simp [recordLookup] at h
      simp [h]
    · simp [recordLookup, hk] at h
      exact List.mem_cons_of_mem _ (ih h)

/-! ## Claim theorems: memory-store adapter -/

/-- C7: `get` fails with the adapter's key-not-found error
(`McpError(InvalidRequest, "キーが見つかりません: <key>")`, this adapter's
realization of the design's `NotFound` kind) whenever the key is absent from
the store, `delete` fails with the same error whenever the key is absent and
leaves the store unchanged, and when the key is present `delete` succeeds
and removes the binding. -/
theorem store_absent_key_failures (s : JsMap) (k : JsVal) :
    (mapLookup s k = none →
        storeGet s k = .error (keyNotFoundError k)
          ∧ storeDelete s k = (s, .error (keyNotFoundError k)))
      ∧ (∀ v, mapLookup s k = some v →
          (storeDelete s k).2 = .ok ()
            ∧ mapLookup (storeDelete s k).1 k = none) := by
  constructor
  · intro h
    constructor
    · simp [storeGet, mapGet, h]
    · simp [storeDelete, mapContains, h]
  · intro v hv
    constructor
    · simp [storeDelete, mapContains, hv]
    · simp [storeDelete, mapContains, hv, mapLookup_mapDelete_self]

/-- Witness for C7 at a concrete store: `get`/`delete` of an absent key fail
and `delete` of a present key succeeds. -/
theorem store_absent_key_failures_witness :
    storeGet [((some "a" : JsVal), (some "1" : JsVal))] (some "b")
        = .error (keyNotFoundError (some "b"))
      ∧ (storeDelete [((some "a" : JsVal), (some "1" : JsVal))] (some "a")).2
        = .ok () := by
  constructor
  · exact ((store_absent_key_failures [((some "a" : JsVal), (some "1" : JsVal))]
      (some "b")).1 (by decide)).1
  · exact ((store_absent_key_failures [((some "a" : JsVal), (some "1" : JsVal))]
      (some "a")).2 (some "1") (by decide)).1

/-- C8 counterexample: the List-includes conjunct fails as universally
stated, at a store reachable through the unvalidated `set_value` handler.
Storing `"0"` under key `"undefined"`, then calling `set_value` without a
`key` argument (which stores under the `undefined` key), then `Set
("undefined", "1")`: `list` collapses the `undefined` key and the literal
`"undefined"` key into one property with the later entry's value `"x"`, so
the pair `("undefined", "1")` just set is not included. -/
theorem store_list_collapse_counterexample :
    (memHandleCall [] "set_value" [("key", "undefined"), ("value", "0")]).1
        = [((some "undefined" : JsVal), (some "0" : JsVal))]
      ∧ (memHandleCall [((some "undefined" : JsVal), (some "0" : JsVal))]
            "set_value" [("value", "x")]).1
        = [((some "undefined" : JsVal), (some "0" : JsVal)),
           ((none : JsVal), (some "x" : JsVal))]
      ∧ storeList (storeSet [((some "undefined" : JsVal), (some "0" : JsVal)),
            ((none : JsVal), (some "x" : JsVal))] (some "undefined") (some "1"))
        = [("undefined", (some "x" : JsVal))]
      ∧ ("undefined", (some "1" : JsVal))
          ∉ storeList (storeSet [((some "undefined" : JsVal), (some "0" : JsVal)),
              ((none : JsVal), (some "x" : JsVal))] (some "undefined") (some "1")) := by
  exact ⟨rfl, rfl, rfl, by decide⟩

/-- C8 (amended): `Set(k,v)` then `Get(k)` returns `v`, and after `Delete(k)`
a `Get(k)` yields the key-not-found error, for every store; `List()` after
`Set(k,v)` includes the pair `(k, v)` for every store whose keys are
pairwise distinct (the JS-`Map` invariant) in which no binding's key other
than `some k` stringifies to `k` — that is, except at stores holding an
`undefined` key colliding with `k = "undefined"`, where `fromEntries`' later-
entry-wins collapse can drop the pair. -/
theorem store_roundtrip (s : JsMap) (k v : String) :
    storeGet (storeSet s (some k) (some v)) (some k) = .ok (some v)
      ∧ storeGet ((storeDelete s (some k)).1) (some k)
        = .error (keyNotFoundError (some k))
      ∧ ((s.map Prod.fst).Nodup →
          (∀ p ∈ s, jsShow p.1 = k → p.1 = some k) →
          (k, (some v : JsVal)) ∈ storeList (storeSet s (some k) (some v))) := by
  refine ⟨?_, ?_, ?_⟩
  · simp [storeGet, storeSet, mapGet, mapLookup_mapSet_self]
  · cases hl : mapLookup s (some k) with
    | some v1 =>
      simp [storeDelete, mapContains, hl, storeGet, mapGet, mapLookup_mapDelete_self]
    | none =>
      simp [storeDelete, mapContains, hl, storeGet, mapGet]
  · intro hnd hcol
    have hlw : lastWins (mapSet s (some k) (some v)) k = some (some v) :=
      lastWins_mapSet_self s k (some v) hnd hcol
    have hlook : recordLookup (storeList (storeSet s (some k) (some v))) k
        = some (some v) := by
      rw [storeList, storeSet, objAssignAll_lookup, hlw]
    exact recordLookup_mem _ _ _ hlook

/-- Witness for C8 at a concrete duplicate-free, collision-free store. -/
theorem store_roundtrip_witness :
    storeGet (storeSet [((some "a" : JsVal), (some "0" : JsVal))]
        (some "a") (some "1")) (some "a") = .ok (some "1")
      ∧ ("a", (some "1" : JsVal))
          ∈ storeList (storeSet [((some "a" : JsVal), (some "0" : JsVal))]
              (some "a") (some "1")) := by
  refine ⟨(store_roundtrip [((some "a" : JsVal), (some "0" : JsVal))] "a" "1").1, ?_⟩
  exact (store_roundtrip [((some "a" : JsVal), (some "0" : JsVal))] "a" "1").2.2
    (by decide) (by decide)

/-- C9: a `call_tool` naming a tool absent from the registry yields a thrown
`McpError` with code `MethodNotFound` and produces no side effect — the
memory-store handler returns the store unchanged, and the Slack handler
issues no outbound call. -/
theorem unknown_tool_method_not_found (s : JsMap) (api : SlackWebClient)
    (name : String) (args args2 : List (String × String)) :
    (name ∉ memToolNames →
        memHandleCall s name args
          = (s, .error (McpError.mk ErrorCode.methodNotFound
              ("不明なツール: " ++ name))))
      ∧ (name ∉ slackToolNames →
        slackHandleCall api name args2
          = ([], .error (SlackException.mcp
              (McpError.mk ErrorCode.methodNotFound ("Unknown tool: " ++ name))))) := by
  constructor
  · intro h
    simp [memToolNames] at h
    unfold memHandleCall
    split <;> simp_all
  · intro h
    simp [slackToolNames] at h
    unfold slackHandleCall
    split <;> simp_all

/-- Witness for C9 at a concrete unknown tool name. -/
theorem unknown_tool_method_not_found_witness :
    memHandleCall [] "bogus_tool" []
        = ([], .error (McpError.mk ErrorCode.methodNotFound
            ("不明なツール: " ++ "bogus_tool")))
      ∧ slackHandleCall apiMember "bogus_tool" []
        = ([], .error (SlackException.mcp
            (McpError.mk ErrorCode.methodNotFound ("Unknown tool: " ++ "bogus_tool")))) := by
  exact ⟨(unknown_tool_method_not_found [] apiMember "bogus_tool" [] []).1 (by decide),
    (unknown_tool_method_not_found [] apiMember "bogus_tool" [] []).2 (by decide)⟩

/-- C5 (amended): the Slack adapter's runner (`handleResult`) catches every
failure raised by an operation and converts it into an error response
carrying the fault's message and the `isError` flag; the memory-store
adapter's runner (`handleEffect`) installs no handler, so a fault raised
inside the effect escapes the runner as the original thrown `McpError`,
carrying its own code rather than an `Internal` kind. -/
theorem runner_fault_conversion :
    (∀ (α : Type) (render : α → String) (e : SlackError),
        slackHandleResult render (Except.error e)
          = ⟨"Slack API error: " ++ e.message, true⟩)
      ∧ (∀ (α : Type) (render : α → String) (successMessage : Option String)
          (e : McpError),
        memHandleEffect (Except.error e) render successMessage
          = Except.error e) := by
  exact ⟨fun _ _ _ => rfl, fun _ _ _ _ => rfl⟩

/-- C5 counterexample: a fault raised inside `execute` (here: `get` of an
absent key) escapes the memory-store runner as the thrown `McpError` instead
of being converted into a response, and the code it carries is
`InvalidRequest`, not `Internal`. -/
theorem runner_fault_escapes_counterexample :
    memHandleCall [] "get_value" [("key", "missing")]
        = ([], Except.error (keyNotFoundError (some "missing")))
      ∧ (keyNotFoundError (some "missing")).code ≠ ErrorCode.internalError := by
  exact ⟨rfl, by decide⟩

/-- C6 (code-bug evidence): calling `set_value` without the declared-required
`value` argument is not rejected — the handler stores `undefined` under the
key and reports success, mutating the store. -/
theorem set_value_missing_required_argument_behavior :
    memHandleCall [] "set_value" [("key", "a")]
      = ([((some "a" : JsVal), (none : JsVal))],
          .ok ⟨"値を保存しました: a = undefined", false⟩) := by
  rfl

/-! ## Reconciler lemmas -/

theorem ensure_join_attempt (api : SlackWebClient) (c : String) (bi : AuthTestResp)
    (botId : String) (ci : ChannelInfoResp) (ch : SlackChannel) (mr : MembersResp)
    (l : List String)
    (h1 : api.authTest = .ok bi) (h2 : bi.ok = true)
    (h3 : bi.user_id = some botId) (h3e : botId ≠ "")
    (h4 : api.conversationsInfo c = .ok ci) (h5 : ci.ok = true)
    (h6 : api.conversationsMembers c = .ok mr) (h7 : mr.ok = true)
    (h8 : mr.members = some l) (h9 : botId ∉ l) (h10 : ci.channel = some ch) :
    ensureChannelAccess api c
      = (match (if ch.is_private then api.conversationsInvite c botId
                else api.conversationsJoin c) with
         | .error e =>
           ([.authTestCall, .channelInfoCall c, .membersCall c,
             (if ch.is_private then ApiEvent.inviteCall c botId
              else ApiEvent.joinCall c)],
            .error ⟨"Join channel failed: " ++ e⟩)
         | .ok jr =>
           if jr.ok then
             ([.authTestCall, .channelInfoCall c, .membersCall c,
               (if ch.is_private then ApiEvent.inviteCall c botId
                else ApiEvent.joinCall c),
               .settleWait 2000], .ok ())
           else
             ([.authTestCall, .channelInfoCall c, .membersCall c,
               (if ch.is_private then ApiEvent.inviteCall c botId
                else ApiEvent.joinCall c)],
              .error (slackRespError jr.error))) := by
  unfold ensureChannelAccess
  rw [h1, h4, h6]
  simp [h2, h3, h3e, h5, h7, h8, h9, h10, strTruthy, jsShow]

theorem ensure_join_path (api : SlackWebClient) (c : String) (bi : AuthTestResp)
    (botId : String) (ci : ChannelInfoResp) (ch : SlackChannel) (mr : MembersResp)
    (l : List String) (jr : PlainResp)
    (h1 : api.authTest = .ok bi) (h2 : bi.ok = true)
    (h3 : bi.user_id = some botId) (h3e : botId ≠ "")
    (h4 : api.conversationsInfo c = .ok ci) (h5 : ci.ok = true)
    (h6 : api.conversationsMembers c = .ok mr) (h7 : mr.ok = true)
    (h8 : mr.members = some l) (h9 : botId ∉ l) (h10 : ci.channel = some ch)
    (h11 : (if ch.is_private then api.conversationsInvite c botId
            else api.conversationsJoin c) = .ok jr)
    (h12 : jr.ok = true) :
    ensureChannelAccess api c
      = ([.authTestCall, .channelInfoCall c, .membersCall c,
          (if ch.is_private then ApiEvent.inviteCall c botId else ApiEvent.joinCall c),
          .settleWait 2000], .ok ()) := by
  rw [ensure_join_attempt api c bi botId ci ch mr l h1 h2 h3 h3e h4 h5 h6 h7 h8 h9 h10,
    h11]
  simp [h12]

theorem ensure_member_path (api : SlackWebClient) (c : String) (bi : AuthTestResp)
    (botId : String) (ci : ChannelInfoResp) (mr : MembersResp) (l : List String)
    (h1 : api.authTest = .ok bi) (h2 : bi.ok = true)
    (h3 : bi.user_id = some botId) (h3e : botId ≠ "")
    (h4 : api.conversationsInfo c = .ok ci) (h5 : ci.ok = true)
    (h6 : api.conversationsMembers c = .ok mr) (h7 : mr.ok = true)
    (h8 : mr.members = some l) (h9 : botId ∈ l) :
    ensureChannelAccess api c
      = ([.authTestCall, .channelInfoCall c, .membersCall c], .ok ()) := by
  unfold ensureChannelAccess
  rw [h1, h4, h6]
  simp [h2, h3, h3e, h5, h7, h8, h9, strTruthy, jsShow]

theorem ensure_members_none (api : SlackWebClient) (c : String) (bi : AuthTestResp)
    (ci : ChannelInfoResp) (mr : MembersResp)
    (h1 : api.authTest = .ok bi) (h2 : bi.ok = true)
    (h3 : strTruthy bi.user_id = true)
    (h4 : api.conversationsInfo c = .ok ci) (h5 : ci.ok = true)
    (h6 : api.conversationsMembers c = .ok mr) (h7 : mr.ok = true)
    (h8 : mr.members = none) :
    ensureChannelAccess api c
      = ([.authTestCall, .channelInfoCall c, .membersCall c], .ok ()) := by
  unfold ensureChannelAccess
  rw [h1, h4, h6]
  simp [h2, h3, h5, h7, h8]

theorem sendMessage_of_ensure_error (api : SlackWebClient) (c t : String)
    (e : SlackError) (h : (ensureChannelAccess api c).2 = Except.error e) :
    sendMessage api c t = ((ensureChannelAccess api c).1, Except.error e) := by
  unfold sendMessage
  cases hE : ensureChannelAccess api c with
  | mk tr r =>
    rw [hE] at h
    cases r with
    | error e2 => simp at h; subst h; rfl
    | ok u => simp at h

theorem getLatestMessage_of_ensure_error (api : SlackWebClient) (c : String)
    (e : SlackError) (h : (ensureChannelAccess api c).2 = Except.error e) :
    getLatestMessage api c = ((ensureChannelAccess api c).1, Except.error e) := by
  unfold getLatestMessage
  cases hE : ensureChannelAccess api c with
  | mk tr r =>
    rw [hE] at h
    cases r with
    | error e2 => simp at h; subst h; rfl
    | ok u => simp at h

theorem sendMessage_trace_of_ensure_ok (api : SlackWebClient) (c t : String)
    (h : (ensureChannelAccess api c).2 = Except.ok ()) :
    (sendMessage api c t).1
      = (ensureChannelAccess api c).1 ++ [ApiEvent.postMessageCall c t] := by
  unfold sendMessage
  cases hE : ensureChannelAccess api c with
  | mk tr r =>
    rw [hE] at h
    cases r with
    | error e2 => simp at h
    | ok u =>
      cases hP : api.chatPostMessage c t with
      | error e => simp [hP]
      | ok resp =>
        by_cases hr : resp.ok <;>
          by_cases hts : strTruthy resp.ts && strTruthy resp.channel <;>
            simp [hP, hr, hts]

theorem getLatestMessage_trace_of_ensure_ok (api : SlackWebClient) (c : String)
    (h : (ensureChannelAccess api c).2 = Except.ok ()) :
    (getLatestMessage api c).1
      = (ensureChannelAccess api c).1 ++ [ApiEvent.historyCall c] := by
  unfold getLatestMessage
  cases hE : ensureChannelAccess api c with
  | mk tr r =>
    rw [hE] at h
    cases r with
    | error e2 => simp at h
    | ok u =>
      cases hP : api.conversationsHistory c with
      | error e => simp [hP]
      | ok resp =>
        by_cases hr : resp.ok
        · cases hm : resp.messages with
          | none => simp [hP, hr, hm]
          | some ms => cases ms <;> simp [hP, hr, hm]
        · simp [hP, hr]

theorem ensure_noGuardedCalls (api : SlackWebClient) (c : String) :
    noGuardedCalls (ensureChannelAccess api c).1 = true := by
  unfold ensureChannelAccess
  cases hA : api.authTest with
  | error e => simp [noGuardedCalls, isGuardedCallEvent]
  | ok bi =>
    by_cases h2 : bi.ok
    case neg => simp [h2, noGuardedCalls, isGuardedCallEvent]
    case pos =>
    by_cases h3 : strTruthy bi.user_id
    case neg => simp [h2, h3, noGuardedCalls, isGuardedCallEvent]
    case pos =>
    cases hI : api.conversationsInfo c with
    | error e => simp [h2, h3, noGuardedCalls, isGuardedCallEvent]
    | ok ci =>
      by_cases h5 : ci.ok
      case neg => simp [h2, h3, h5, noGuardedCalls, isGuardedCallEvent]
      case pos =>
      cases hM : api.conversationsMembers c with
      | error e => simp [h2, h3, h5, noGuardedCalls, isGuardedCallEvent]
      | ok mr =>
        by_cases h7 : mr.ok
        case neg => simp [h2, h3, h5, h7, noGuardedCalls, isGuardedCallEvent]
        case pos =>
        cases hMem : mr.members with
        | none => simp [h2, h3, h5, h7, hMem, noGuardedCalls, isGuardedCallEvent]
        | some l =>
          by_cases h9 : jsShow bi.user_id ∈ l
          · simp [h2, h3, h5, h7, hMem, h9, noGuardedCalls, isGuardedCallEvent]
          · cases hCh : ci.channel with
            | none => simp [h2, h3, h5, h7, hMem, h9, hCh, noGuardedCalls, isGuardedCallEvent]
            | some ch =>
              by_cases hp : ch.is_private
              · cases hJ : api.conversationsInvite c (jsShow bi.user_id) with
                | error e =>
                  simp [h2, h3, h5, h7, hMem, h9, hCh, hp, hJ, noGuardedCalls,
                    isGuardedCallEvent]
                | ok jr =>
                  by_cases hjr : jr.ok <;>
                    simp [h2, h3, h5, h7, hMem, h9, hCh, hp, hJ, hjr, noGuardedCalls,
                      isGuardedCallEvent]
              · cases hJ : api.conversationsJoin c with
                | error e =>
                  simp [h2, h3, h5, h7, hMem, h9, hCh, hp, hJ, noGuardedCalls,
                    isGuardedCallEvent]
                | ok jr =>
                  by_cases hjr : jr.ok <;>
                    simp [h2, h3, h5, h7, hMem, h9, hCh, hp, hJ, hjr, noGuardedCalls,
                      isGuardedCallEvent]

theorem ensure_error_of_inspection_failure (api : SlackWebClient) (c : String)
    (h : channelInspectionFails api c = true) :
    ∃ e, (ensureChannelAccess api c).2 = Except.error e := by
  unfold channelInspectionFails at h
  unfold ensureChannelAccess
  cases hA : api.authTest with
  | error e => exact ⟨⟨"Auth test failed: " ++ e⟩, rfl⟩
  | ok bi =>
    by_cases h2 : bi.ok
    · by_cases h3 : strTruthy bi.user_id
      · cases hI : api.conversationsInfo c with
        | error e =>
          exact ⟨⟨"Channel info failed: " ++ e⟩, by simp [h2, h3]⟩
        | ok r =>
          rw [hI] at h
          simp at h
          exact ⟨slackRespError r.error, by simp [h2, h3, h]⟩
      · exact ⟨⟨"Bot user ID not found"⟩, by simp [h2, h3]⟩
    · exact ⟨slackRespError bi.error, by simp [h2]⟩


/-! ## Claim theorems: Slack adapter -/

/-- C1: for a channel-scoped send to a channel the bot is not yet a member
of, with each reconciliation step succeeding, the executed steps are exactly
identity check, channel inspect, join/invite, settle-wait, send, in that
order — after the successful join/invite the fixed settle-wait runs, and the
send is issued only after the settle-wait. -/
theorem slack_send_join_path_ordering (api : SlackWebClient) (c t : String)
    (bi : AuthTestResp) (botId : String) (ci : ChannelInfoResp) (ch : SlackChannel)
    (mr : MembersResp) (l : List String) (jr : PlainResp)
    (h1 : api.authTest = .ok bi) (h2 : bi.ok = true)
    (h3 : bi.user_id = some botId) (h3e : botId ≠ "")
    (h4 : api.conversationsInfo c = .ok ci) (h5 : ci.ok = true)
    (h6 : api.conversationsMembers c = .ok mr) (h7 : mr.ok = true)
    (h8 : mr.members = some l) (h9 : botId ∉ l) (h10 : ci.channel = some ch)
    (h11 : (if ch.is_private then api.conversationsInvite c botId
            else api.conversationsJoin c) = .ok jr)
    (h12 : jr.ok = true) :
    (sendMessage api c t).1
      = [.authTestCall, .channelInfoCall c, .membersCall c,
         (if ch.is_private then ApiEvent.inviteCall c botId else ApiEvent.joinCall c),
         .settleWait 2000, .postMessageCall c t] := by
  have hE := ensure_join_path api c bi botId ci ch mr l jr
    h1 h2 h3 h3e h4 h5 h6 h7 h8 h9 h10 h11 h12
  have hT := sendMessage_trace_of_ensure_ok api c t (by rw [hE])
  rw [hT, hE]
  rfl

/-- Witness for C1: with a concrete client for a public channel whose member
list lacks the bot, the send trace is exactly the five reconciliation steps
followed by the send. -/
theorem slack_send_join_path_ordering_witness :
    (sendMessage apiJoinHappy "C1" "hello").1
      = [.authTestCall, .channelInfoCall "C1", .membersCall "C1",
         ApiEvent.joinCall "C1", .settleWait 2000, .postMessageCall "C1" "hello"] := by
  have h := slack_send_join_path_ordering apiJoinHappy "C1" "hello"
    ⟨true, none, some "B1"⟩ "B1" ⟨true, none, some ⟨false⟩⟩ ⟨false⟩
    ⟨true, none, some ["U7"]⟩ ["U7"] ⟨true, none⟩
    rfl rfl rfl (by decide) rfl rfl rfl rfl rfl (by decide) rfl rfl rfl
  simpa using h

/-- C2: when channel inspection fails, reconciliation fails, both guarded
operations short-circuit to that failure — their traces contain neither a
message send nor a history read — and the formatted response is the
error-flagged rendering of the reconciliation failure (the design's
`AccessError` kind). -/
theorem slack_inspection_failure_containment (api : SlackWebClient) (c t : String)
    (h : channelInspectionFails api c = true) :
    ∃ e, (ensureChannelAccess api c).2 = Except.error e
      ∧ sendMessage api c t = ((ensureChannelAccess api c).1, Except.error e)
      ∧ getLatestMessage api c = ((ensureChannelAccess api c).1, Except.error e)
      ∧ noGuardedCalls (sendMessage api c t).1 = true
      ∧ noGuardedCalls (getLatestMessage api c).1 = true
      ∧ slackHandleResult renderSendMessageResult (sendMessage api c t).2
          = ⟨"Slack API error: " ++ e.message, true⟩
      ∧ slackHandleResult renderMessageResponse (getLatestMessage api c).2
          = ⟨"Slack API error: " ++ e.message, true⟩ := by
  obtain ⟨e, he⟩ := ensure_error_of_inspection_failure api c h
  have hs := sendMessage_of_ensure_error api c t e he
  have hg := getLatestMessage_of_ensure_error api c e he
  refine ⟨e, he, hs, hg, ?_, ?_, ?_, ?_⟩
  · rw [hs]; simpa using ensure_noGuardedCalls api c
  · rw [hg]; simpa using ensure_noGuardedCalls api c
  · rw [hs]; rfl
  · rw [hg]; rfl

/-- Witness for C2 with a client whose `conversations.info` rejects. -/
theorem slack_inspection_failure_containment_witness :
    ∃ e, (ensureChannelAccess apiNoChannel "C404").2 = Except.error e
      ∧ sendMessage apiNoChannel "C404" "hi"
          = ((ensureChannelAccess apiNoChannel "C404").1, Except.error e)
      ∧ getLatestMessage apiNoChannel "C404"
          = ((ensureChannelAccess apiNoChannel "C404").1, Except.error e)
      ∧ noGuardedCalls (sendMessage apiNoChannel "C404" "hi").1 = true
      ∧ noGuardedCalls (getLatestMessage apiNoChannel "C404").1 = true
      ∧ slackHandleResult renderSendMessageResult
            (sendMessage apiNoChannel "C404" "hi").2
          = ⟨"Slack API error: " ++ e.message, true⟩
      ∧ slackHandleResult renderMessageResponse (getLatestMessage apiNoChannel "C404").2
          = ⟨"Slack API error: " ++ e.message, true⟩ :=
  slack_inspection_failure_containment apiNoChannel "C404" "hi" rfl

/-- C3: when the bot's id is already among the channel's known members,
reconciliation settles after identity check, inspect and member fetch with
no join/invite call and no settle-wait, and both guarded operations (also a
second invocation run in sequence) perform zero join/invite calls. -/
theorem slack_membership_short_circuit (api : SlackWebClient) (c t1 t2 : String)
    (bi : AuthTestResp) (botId : String) (ci : ChannelInfoResp) (mr : MembersResp)
    (l : List String)
    (h1 : api.authTest = .ok bi) (h2 : bi.ok = true)
    (h3 : bi.user_id = some botId) (h3e : botId ≠ "")
    (h4 : api.conversationsInfo c = .ok ci) (h5 : ci.ok = true)
    (h6 : api.conversationsMembers c = .ok mr) (h7 : mr.ok = true)
    (h8 : mr.members = some l) (h9 : botId ∈ l) :
    ensureChannelAccess api c
        = ([.authTestCall, .channelInfoCall c, .membersCall c], .ok ())
      ∧ countJoinEvents (sendMessage api c t1).1 = 0
      ∧ countJoinEvents (getLatestMessage api c).1 = 0
      ∧ countJoinEvents ((sendMessage api c t1).1 ++ (sendMessage api c t2).1) = 0 := by
  have hE := ensure_member_path api c bi botId ci mr l h1 h2 h3 h3e h4 h5 h6 h7 h8 h9
  have hs1 := sendMessage_trace_of_ensure_ok api c t1 (by rw [hE])
  have hs2 := sendMessage_trace_of_ensure_ok api c t2 (by rw [hE])
  have hg := getLatestMessage_trace_of_ensure_ok api c (by rw [hE])
  refine ⟨hE, ?_, ?_, ?_⟩
  · rw [hs1, hE]
    simp [countJoinEvents, isJoinEvent, List.countP_cons, List.countP_nil,
      List.countP_append]
  · rw [hg, hE]
    simp [countJoinEvents, isJoinEvent, List.countP_cons, List.countP_nil,
      List.countP_append]
  · rw [hs1, hs2, hE]
    simp [countJoinEvents, isJoinEvent, List.countP_cons, List.countP_nil,
      List.countP_append]

/-- Witness for C3 with a concrete client that already lists the bot among
the channel members. -/
theorem slack_membership_short_circuit_witness :
    ensureChannelAccess apiMember "C1"
        = ([.authTestCall, .channelInfoCall "C1", .membersCall "C1"], .ok ())
      ∧ countJoinEvents (sendMessage apiMember "C1" "a").1 = 0
      ∧ countJoinEvents (getLatestMessage apiMember "C1").1 = 0
      ∧ countJoinEvents ((sendMessage apiMember "C1" "a").1
          ++ (sendMessage apiMember "C1" "b").1) = 0 :=
  slack_membership_short_circuit apiMember "C1" "a" "b"
    ⟨true, none, some "B1"⟩ "B1" ⟨true, none, some ⟨false⟩⟩
    ⟨true, none, some ["U7", "B1"]⟩ ["U7", "B1"]
    rfl rfl rfl (by decide) rfl rfl rfl rfl rfl (by decide)

/-- C4: when the bot is absent from the known members at inspection time,
the fourth executed step is an invite call for a private channel and a
self-join call for a public channel; and if that join/invite fails, the
reconciliation fails (the design's `AccessError`), the guarded send
short-circuits to that failure and the response carries the error flag. -/
theorem slack_join_branch_and_failure (api : SlackWebClient) (c t : String)
    (bi : AuthTestResp) (botId : String) (ci : ChannelInfoResp) (ch : SlackChannel)
    (mr : MembersResp) (l : List String)
    (h1 : api.authTest = .ok bi) (h2 : bi.ok = true)
    (h3 : bi.user_id = some botId) (h3e : botId ≠ "")
    (h4 : api.conversationsInfo c = .ok ci) (h5 : ci.ok = true)
    (h6 : api.conversationsMembers c = .ok mr) (h7 : mr.ok = true)
    (h8 : mr.members = some l) (h9 : botId ∉ l) (h10 : ci.channel = some ch) :
    (∃ rest, (ensureChannelAccess api c).1
        = [.authTestCall, .channelInfoCall c, .membersCall c,
           (if ch.is_private then ApiEvent.inviteCall c botId
            else ApiEvent.joinCall c)] ++ rest)
      ∧ (callFails (if ch.is_private then api.conversationsInvite c botId
            else api.conversationsJoin c) = true →
          ∃ e, ensureChannelAccess api c
              = ([.authTestCall, .channelInfoCall c, .membersCall c,
                  (if ch.is_private then ApiEvent.inviteCall c botId
                   else ApiEvent.joinCall c)], Except.error e)
            ∧ sendMessage api c t = ((ensureChannelAccess api c).1, Except.error e)
            ∧ slackHandleResult renderSendMessageResult (sendMessage api c t).2
                = ⟨"Slack API error: " ++ e.message, true⟩) := by
  have hE := ensure_join_attempt api c bi botId ci ch mr l
    h1 h2 h3 h3e h4 h5 h6 h7 h8 h9 h10
  constructor
  · cases hJ : (if ch.is_private then api.conversationsInvite c botId
        else api.conversationsJoin c) with
    | error e =>
      rw [hE, hJ]
      exact ⟨[], by simp⟩
    | ok jr =>
      by_cases hjr : jr.ok
      · rw [hE, hJ]
        exact ⟨[.settleWait 2000], by simp [hjr]⟩
      · rw [hE, hJ]
        exact ⟨[], by simp [hjr]⟩
  · intro hFail
    cases hJ : (if ch.is_private then api.conversationsInvite c botId
        else api.conversationsJoin c) with
    | error e =>
      have he : (ensureChannelAccess api c).2
          = Except.error ⟨"Join channel failed: " ++ e⟩ := by rw [hE, hJ]
      have hs := sendMessage_of_ensure_error api c t ⟨"Join channel failed: " ++ e⟩ he
      refine ⟨⟨"Join channel failed: " ++ e⟩, ?_, hs, ?_⟩
      · rw [hE, hJ]
      · rw [hs]; rfl
    | ok jr =>
      rw [hJ] at hFail
      simp [callFails] at hFail
      have he : (ensureChannelAccess api c).2
          = Except.error (slackRespError jr.error) := by rw [hE, hJ]; simp [hFail]
      have hs := sendMessage_of_ensure_error api c t (slackRespError jr.error) he
      refine ⟨slackRespError jr.error, ?_, hs, ?_⟩
      · rw [hE, hJ]; simp [hFail]
      · rw [hs]; rfl

/-- Witness for C4 with a concrete private channel whose invite call is
refused: the reconciliation ends in the invite attempt's failure and the
guarded send never runs. -/
theorem slack_join_branch_and_failure_witness :
    ∃ e, ensureChannelAccess apiPrivateInviteFails "C9"
        = ([.authTestCall, .channelInfoCall "C9", .membersCall "C9",
            ApiEvent.inviteCall "C9" "B1"], Except.error e)
      ∧ sendMessage apiPrivateInviteFails "C9" "hi"
          = ((ensureChannelAccess apiPrivateInviteFails "C9").1, Except.error e)
      ∧ slackHandleResult renderSendMessageResult
            (sendMessage apiPrivateInviteFails "C9" "hi").2
          = ⟨"Slack API error: " ++ e.message, true⟩ :=
  (slack_join_branch_and_failure apiPrivateInviteFails "C9" "hi"
    ⟨true, none, some "B1"⟩ "B1" ⟨true, none, some ⟨true⟩⟩ ⟨true⟩
    ⟨true, none, some ["U7"]⟩ ["U7"]
    rfl rfl rfl (by decide) rfl rfl rfl rfl rfl (by decide) rfl).2 rfl

/-- C10: when the members lookup succeeds but its response carries no
`members` field at all, reconciliation performs no join or invite and no
settle-wait and returns success — for every client satisfying these
hypotheses, irrespective of any actual membership. -/
theorem members_field_missing_settles (api : SlackWebClient) (c : String)
    (bi : AuthTestResp) (ci : ChannelInfoResp) (mr : MembersResp)
    (h1 : api.authTest = .ok bi) (h2 : bi.ok = true)
    (h3 : strTruthy bi.user_id = true)
    (h4 : api.conversationsInfo c = .ok ci) (h5 : ci.ok = true)
    (h6 : api.conversationsMembers c = .ok mr) (h7 : mr.ok = true)
    (h8 : mr.members = none) :
    ensureChannelAccess api c
        = ([.authTestCall, .channelInfoCall c, .membersCall c], .ok ())
      ∧ countJoinEvents (ensureChannelAccess api c).1 = 0
      ∧ ApiEvent.settleWait 2000 ∉ (ensureChannelAccess api c).1 := by
  have hE := ensure_members_none api c bi ci mr h1 h2 h3 h4 h5 h6 h7 h8
  refine ⟨hE, ?_, ?_⟩
  · rw [hE]
    simp [countJoinEvents, isJoinEvent, List.countP_cons, List.countP_nil]
  · rw [hE]
    simp

/-- Witness for C10 with a concrete client returning a members response
without a `members` field. -/
theorem members_field_missing_settles_witness :
    ensureChannelAccess apiNoMembersField "C2"
        = ([.authTestCall, .channelInfoCall "C2", .membersCall "C2"], .ok ())
      ∧ countJoinEvents (ensureChannelAccess apiNoMembersField "C2").1 = 0
      ∧ ApiEvent.settleWait 2000 ∉ (ensureChannelAccess apiNoMembersField "C2").1 :=
  members_field_missing_settles apiNoMembersField "C2"
    ⟨true, none, some "B1"⟩ ⟨true, none, some ⟨false⟩⟩ ⟨true, none, none⟩
    rfl rfl (by decide) rfl rfl rfl rfl rfl
